import Mathlib

/-!
A shallow embedding of `pywin32cap/capture_window.py` (class `WindowCapture`).

The Win32 environment is modelled by two pieces:

* `Sys` — the mutable desktop state the code reads and writes during one
  capture call: the foreground (focus) window handle, and the target
  window's minimized flag and layered (transparency) flag.  The code
  manipulates exactly one target window per call, so the minimized/layered
  flags refer to that window.
* `Env` — the oracle of outcomes of the Win32/GDI/PIL calls made during the
  call: window/client rectangles, the success booleans of every fallible
  API call (`PrintWindow`, `BitBlt`, DC creation, …), and the pixel
  content the rendering paths would produce.  Fallible calls that the
  Python code guards with `try`/`except` or a result check are modelled by
  a boolean outcome in `Env`; file saving via PIL is modelled as an
  always-succeeding effect.

Every externally visible side effect is recorded in a trace of `Act`
values, so that claims about "actions issued" (focus restoration, file
saves, render attempts, show/hide of the window) are statements about the
trace.  Each capture function returns `(image?, final Sys, trace)`.
-/

set_option linter.unusedVariables false
set_option linter.unnecessarySeqFocus false

namespace PyWin32Cap

/-- A rectangle as returned by `GetWindowRect` / `GetClientRect`:
`(left, top, right, bottom)`. -/
structure Rect where
  left : Int
  top : Int
  right : Int
  bottom : Int
deriving DecidableEq, Repr

/-- A PIL image: width, height, and pixel content (as an abstract value per
coordinate).  `PIL.Image.frombuffer` and `crop` are modelled below. -/
structure Image where
  width : Nat
  height : Nat
  pix : Nat → Nat → Nat

/-- Externally visible actions issued during a capture call. -/
inductive Act where
  /-- `SetWindowLong(.., WS_EX_LAYERED)` + `SetLayeredWindowAttributes`
  (from `make_window_transparent`). -/
  | setLayered
  /-- removal of `WS_EX_LAYERED` (from `restore_window_opacity`). -/
  | unsetLayered
  /-- `ShowWindow(SW_SHOWNOACTIVATE)` + `SetWindowPos(.., SWP_NOACTIVATE ..)`
  (from `restore_window_no_focus`). -/
  | showNoActivate
  /-- `ShowWindow(hwnd, SW_SHOWMINIMIZED)` re-minimizing the target. -/
  | showMinimized
  /-- one render attempt (`PrintWindow` variant or `BitBlt`). -/
  | tryRender (method : String)
  /-- a focus-restoration attempt on `hwnd` (from `restore_focus`:
  `SetForegroundWindow`, with a `SetWindowPos` fallback inside). -/
  | restoreFocus (hwnd : Int)
  /-- `img.save(path)`. -/
  | save (path : String)
deriving DecidableEq, Repr

/-- Desktop state read and mutated by one capture call. -/
structure Sys where
  /-- result of `GetForegroundWindow` (0 = none). -/
  foreground : Int
  /-- `IsIconic` on the target window. -/
  minimized : Bool
  /-- whether the target window currently has `WS_EX_LAYERED` set. -/
  layered : Bool
deriving DecidableEq, Repr

/-- Oracle of the outcomes of the external calls made during one capture
call (the environment is assumed stable for the duration of the call —
the "no external actor changes them concurrently" assumption). -/
structure Env where
  /-- `GetWindowRect(hwnd)`. -/
  windowRect : Rect
  /-- `GetClientRect(hwnd)`. -/
  clientRect : Rect
  /-- `ClientToScreen(hwnd, (0, 0))`. -/
  clientOrigin : Int × Int
  /-- `IsWindowVisible(hwnd)` (recorded by the code, otherwise unused). -/
  visible : Bool
  /-- `make_window_transparent` succeeds. -/
  transparentOk : Bool
  /-- `restore_window_no_focus` reports success. -/
  restoreNoFocusOk : Bool
  /-- `GetDC`/`GetWindowDC` returns a nonzero handle. -/
  getDcOk : Bool
  /-- `CreateDCFromHandle`/`CreateCompatibleDC` do not raise. -/
  createDcOk : Bool
  /-- bitmap creation and `SelectObject` do not raise. -/
  bitmapOk : Bool
  /-- `PrintWindow(.., PW_CLIENTONLY)` result. -/
  pwClientOnly : Bool
  /-- `PrintWindow(.., 0)` result. -/
  pwPlain : Bool
  /-- `BitBlt(.., SRCCOPY)` result. -/
  bitblt : Bool
  /-- `PrintWindow(.., PW_RENDERFULLCONTENT)` result. -/
  pwFull : Bool
  /-- `GetBitmapBits` returns a zero-length buffer. -/
  bitsEmpty : Bool
  /-- `Image.frombuffer` does not raise. -/
  frombufferOk : Bool
  /-- `restore_window_opacity` succeeds. -/
  restoreOpacityOk : Bool
  /-- pixel content a client-area render produces. -/
  clientPix : Nat → Nat → Nat
  /-- pixel content a full-window render produces. -/
  fullPix : Nat → Nat → Nat

/-- `make_window_transparent` (lines 55-64): set the layered flag and a
near-zero alpha; best-effort, returns whether it succeeded. -/
def make_window_transparent (env : Env) (s : Sys) : Bool × Sys × List Act :=
  if env.transparentOk then (true, { s with layered := true }, [Act.setLayered])
  else (false, s, [])

/-- `restore_window_opacity` (lines 66-74): clear the layered flag;
best-effort. -/
def restore_window_opacity (env : Env) (s : Sys) : Sys × List Act :=
  if env.restoreOpacityOk then ({ s with layered := false }, [Act.unsetLayered])
  else (s, [])

/-- `restore_focus` (lines 42-49): if the handle is nonzero, attempt
`SetForegroundWindow`, falling back to `SetWindowPos`; both set the
foreground window.  The attempt is recorded as one `Act.restoreFocus`. -/
def restore_focus (hwnd : Int) (s : Sys) : Sys × List Act :=
  if hwnd ≠ 0 then ({ s with foreground := hwnd }, [Act.restoreFocus hwnd])
  else (s, [])

/-- Result of `get_window_dimensions`: the 6-tuple
`(left, top, right, bottom, width, height)` of lines 116/122. -/
structure Dims where
  left : Int
  top : Int
  right : Int
  bottom : Int
  width : Int
  height : Int
deriving DecidableEq, Repr

/-- `get_window_dimensions` (lines 106-122). -/
def get_window_dimensions (env : Env) (client_only : Bool) : Dims :=
  if client_only then
    let w := env.clientRect.right - env.clientRect.left
    let h := env.clientRect.bottom - env.clientRect.top
    ⟨0, 0, w, h, w, h⟩
  else
    ⟨env.windowRect.left, env.windowRect.top, env.windowRect.right, env.windowRect.bottom,
      env.windowRect.right - env.windowRect.left,
      env.windowRect.bottom - env.windowRect.top⟩

/-- The render attempt chain of `capture_window` (lines 202-235): returns
`(success, method_used, methods attempted in order)`. -/
def render_attempts (env : Env) (client_only : Bool) : Bool × Option String × List String :=
  if client_only then
    if env.pwClientOnly then
      (true, some "PrintWindow PW_CLIENTONLY", ["PrintWindow PW_CLIENTONLY"])
    else if env.pwPlain then
      (true, some "Standard PrintWindow",
        ["PrintWindow PW_CLIENTONLY", "Standard PrintWindow"])
    else if env.bitblt then
      (true, some "BitBlt",
        ["PrintWindow PW_CLIENTONLY", "Standard PrintWindow", "BitBlt"])
    else
      (false, none, ["PrintWindow PW_CLIENTONLY", "Standard PrintWindow", "BitBlt"])
  else
    if env.pwFull then
      (true, some "PrintWindow PW_RENDERFULLCONTENT", ["PrintWindow PW_RENDERFULLCONTENT"])
    else if env.bitblt then
      (true, some "BitBlt", ["PrintWindow PW_RENDERFULLCONTENT", "BitBlt"])
    else
      (false, none, ["PrintWindow PW_RENDERFULLCONTENT", "BitBlt"])

/-- The image produced by the render-and-extract phase (lines 202-262): if
some strategy succeeded, the bitmap bits are read; a zero-length buffer or
a `frombuffer` failure yields no image, otherwise an image of the target
dimensions holding the rendered content. -/
def extracted_image (env : Env) (client_only : Bool) : Option Image :=
  if (render_attempts env client_only).1 then
    if env.bitsEmpty then none                               -- lines 246-249
    else if env.frombufferOk then
      some ⟨(get_window_dimensions env client_only).width.toNat,
        (get_window_dimensions env client_only).height.toNat,
        if client_only then env.clientPix else env.fullPix⟩
    else none
  else none

/-- Lines 202-258: the render chain, extraction, and the optional save,
appended to the incoming trace `tr1`. -/
def render_and_extract (env : Env) (client_only : Bool) (save_file : Option String)
    (tr1 : List Act) : Option Image × List Act :=
  let img := extracted_image env client_only
  let tr2 := tr1 ++ (render_attempts env client_only).2.2.map Act.tryRender
  match img, save_file with
  | some _, some p => (img, tr2 ++ [Act.save p])             -- lines 256-258
  | _, _ => (img, tr2)

/-- Lines 266-289: cleanup, restoration of the window state (re-minimize
and restore opacity when the window had been minimized), then focus
restoration, then return of the image. -/
def release_and_restore (env : Env) (img : Option Image) (fg0 : Int)
    (wasMin : Bool) (s1 : Sys) (tr : List Act) : Option Image × Sys × List Act :=
  let post :=                                                -- lines 280-283
    if wasMin then
      let o := restore_window_opacity env { s1 with minimized := true }
      (o.1, tr ++ [Act.showMinimized] ++ o.2)
    else (s1, tr)
  if fg0 ≠ 0 then                                            -- lines 285-287
    let f := restore_focus fg0 post.1
    (img, f.1, post.2 ++ f.2)
  else (img, post.1, post.2)

/-- The body of `capture_window` from line 164 on (after the minimized
pre-step): dimensions check, DC/bitmap acquisition, render chain,
extraction, save, cleanup, state and focus restoration.  `fg0` is
`original_foreground`, `wasMin` is `was_minimized`, `s1`/`tr1` the state
and trace after the pre-step. -/
def capture_main (env : Env) (client_only : Bool) (save_file : Option String)
    (fg0 : Int) (wasMin : Bool) (s1 : Sys) (tr1 : List Act) :
    Option Image × Sys × List Act :=
  let d := get_window_dimensions env client_only
  if d.width ≤ 0 ∨ d.height ≤ 0 then (none, s1, tr1)        -- lines 167-169
  else if env.getDcOk = false then (none, s1, tr1)           -- lines 177-179
  else if env.createDcOk = false then (none, s1, tr1)        -- lines 184-187
  else if env.bitmapOk = false then (none, s1, tr1)          -- lines 195-200
  else
    let re := render_and_extract env client_only save_file tr1
    release_and_restore env re.1 fg0 wasMin s1 re.2

/-- `capture_window` (lines 124-301).  Returns the optional image, the
final desktop state, and the trace of issued actions. -/
def capture_window (env : Env) (hwnd : Int) (client_only : Bool)
    (save_file : Option String) (s : Sys) : Option Image × Sys × List Act :=
  let fg0 := s.foreground                                    -- line 142
  let wasMin := s.minimized                                  -- line 145
  if wasMin then                                             -- lines 152-162
    let t := make_window_transparent env s
    if env.restoreNoFocusOk then
      capture_main env client_only save_file fg0 wasMin
        { t.2.1 with minimized := false } (t.2.2 ++ [Act.showNoActivate])
    else
      (none, t.2.1, t.2.2)                                   -- line 157-159
  else
    capture_main env client_only save_file fg0 wasMin s []

/-- `capture_window_full` (lines 303-305). -/
def capture_window_full (env : Env) (hwnd : Int) (save_file : Option String)
    (s : Sys) : Option Image × Sys × List Act :=
  capture_window env hwnd false save_file s

/-- `PIL.Image.crop` with box `(l, t, r, b)`, as used on an in-bounds box:
the region image, whose pixel `(x, y)` is the source pixel
`(l + x, t + y)`. -/
def Image.crop (img : Image) (l t r b : Int) : Image :=
  ⟨(r - l).toNat, (b - t).toNat, fun x y => img.pix (l + x).toNat (t + y).toNat⟩

/-- `capture_window_client_crop` (lines 322-382): full-window capture, then
geometric crop at the border offsets; the crop is rejected if out of
bounds.  A crop box with `right < left` or `bottom < top` makes PIL raise
`ValueError`, caught by the surrounding `except` (returns `None`). -/
def capture_window_client_crop (env : Env) (hwnd : Int)
    (save_file : Option String) (s : Sys) : Option Image × Sys × List Act :=
  let rfull := capture_window_full env hwnd none s           -- line 332
  match rfull.1 with
  | none => (none, rfull.2.1, rfull.2.2)                     -- lines 333-335
  | some full_img =>
    let left_border := env.clientOrigin.1 - env.windowRect.left   -- line 345
    let top_border := env.clientOrigin.2 - env.windowRect.top     -- line 346
    let client_width := env.clientRect.right - env.clientRect.left
    let client_height := env.clientRect.bottom - env.clientRect.top
    if left_border < 0 ∨ top_border < 0
        ∨ left_border + client_width > (full_img.width : Int)
        ∨ top_border + client_height > (full_img.height : Int) then
      (none, rfull.2.1, rfull.2.2)                           -- lines 351-366
    else if client_width < 0 ∨ client_height < 0 then
      (none, rfull.2.1, rfull.2.2)                           -- PIL ValueError, caught line 380
    else
      let client_img := full_img.crop left_border top_border
        (left_border + client_width) (top_border + client_height)
      match save_file with
      | some p => (some client_img, rfull.2.1, rfull.2.2 ++ [Act.save p])
      | none => (some client_img, rfull.2.1, rfull.2.2)

/-- `capture_window_client` (lines 307-320): direct client capture, falling
back to the crop method; the direct call gets `save_file=None`, the save
happens at this level on the direct-success path. -/
def capture_window_client (envDirect envCrop : Env) (hwnd : Int)
    (save_file : Option String) (s : Sys) : Option Image × Sys × List Act :=
  let rdir := capture_window envDirect hwnd true none s      -- line 310
  match rdir.1 with
  | none =>
    let rcrop := capture_window_client_crop envCrop hwnd save_file rdir.2.1
    (rcrop.1, rcrop.2.1, rdir.2.2 ++ rcrop.2.2)              -- line 315
  | some img =>
    match save_file with                                     -- lines 318-319
    | some p => (some img, rdir.2.1, rdir.2.2 ++ [Act.save p])
    | none => (some img, rdir.2.1, rdir.2.2)

/-- Case-insensitive lowering of a string to its character list, as
`str.lower()` on the relevant (latin) range. -/
def lowerChars (str : String) : List Char := str.data.map Char.toLower

/-- Python's substring test `needle in hay` on character lists. -/
def sub_in (needle : List Char) : List Char → Bool
  | [] => needle.isEmpty
  | c :: rest => needle.isPrefixOf (c :: rest) || sub_in needle rest

/-- The match test of line 396: `partial_title.lower() in window_title.lower()`. -/
def title_matches (query title : String) : Bool :=
  sub_in (lowerChars query) (lowerChars title)

/-- `find_windows_by_title_partial` (lines 389-401).  `enum` is the
`EnumWindows` enumeration of top-level `(handle, title)` pairs in
enumeration order; `isWindow` models `IsWindow`.  The callback appends
each match to the accumulator list. -/
def find_windows_by_title_sub (isWindow : Int → Bool)
    (enum : List (Int × String)) (query : String) : List (Int × String) :=
  enum.foldl
    (fun windows p =>
      if isWindow p.1 && title_matches query p.2 then windows ++ [p] else windows)
    []

/-! ### Helper predicates and characterization lemmas -/

/-- Picks focus-restoration attempts out of a trace. -/
def isFocusRestore : Act → Bool
  | Act.restoreFocus _ => true
  | Act.setLayered => false
  | Act.unsetLayered => false
  | Act.showNoActivate => false
  | Act.showMinimized => false
  | Act.tryRender _ => false
  | Act.save _ => false

/-- Picks file-save actions out of a trace. -/
def isSaveAct : Act → Bool
  | Act.save _ => true
  | Act.setLayered => false
  | Act.unsetLayered => false
  | Act.showNoActivate => false
  | Act.showMinimized => false
  | Act.tryRender _ => false
  | Act.restoreFocus _ => false

/-- The image `capture_window` produces, as a pure function of the oracle:
`none` on the transient-restore early abort, on the dimension/DC/bitmap
guards, and otherwise the extraction result. -/
def capture_result (env : Env) (client_only : Bool) (wasMin : Bool) : Option Image :=
  if wasMin = true ∧ env.restoreNoFocusOk = false then none
  else
    let d := get_window_dimensions env client_only
    if d.width ≤ 0 ∨ d.height ≤ 0 then none
    else if env.getDcOk = false then none
    else if env.createDcOk = false then none
    else if env.bitmapOk = false then none
    else extracted_image env client_only

/-- The guard conditions of lines 167-200 under which `capture_window`
returns early with no image (after the minimized pre-step). -/
def main_aborts (env : Env) (client_only : Bool) : Prop :=
  (get_window_dimensions env client_only).width ≤ 0
  ∨ (get_window_dimensions env client_only).height ≤ 0
  ∨ env.getDcOk = false ∨ env.createDcOk = false ∨ env.bitmapOk = false

instance (env : Env) (client_only : Bool) : Decidable (main_aborts env client_only) := by
  unfold main_aborts; infer_instance

lemma release_and_restore_fst (env : Env) (img : Option Image) (fg0 : Int)
    (wasMin : Bool) (s1 : Sys) (tr : List Act) :
    (release_and_restore env img fg0 wasMin s1 tr).1 = img := by
  unfold release_and_restore
  split_ifs <;> rfl

lemma render_and_extract_fst (env : Env) (co : Bool) (sf : Option String)
    (tr1 : List Act) :
    (render_and_extract env co sf tr1).1 = extracted_image env co := by
  unfold render_and_extract
  rcases h : extracted_image env co with _ | img <;> rcases sf with _ | p <;> simp [h]

lemma capture_main_fst (env : Env) (co : Bool) (sf : Option String) (fg0 : Int)
    (wasMin : Bool) (s1 : Sys) (tr1 : List Act) :
    (capture_main env co sf fg0 wasMin s1 tr1).1 =
      capture_result env co false := by
  unfold capture_main capture_result
  simp only [Bool.false_eq_true, false_and, if_false]
  split_ifs <;> simp [release_and_restore_fst, render_and_extract_fst]

lemma capture_window_fst (env : Env) (hwnd : Int) (co : Bool) (sf : Option String)
    (s : Sys) :
    (capture_window env hwnd co sf s).1 = capture_result env co s.minimized := by
  unfold capture_window
  rcases hm : s.minimized <;> rcases hr : env.restoreNoFocusOk <;>
    simp [hm, hr, capture_main_fst, capture_result, make_window_transparent]

lemma capture_main_of_aborts (env : Env) (co : Bool) (sf : Option String)
    (fg0 : Int) (wasMin : Bool) (s1 : Sys) (tr1 : List Act)
    (h : main_aborts env co) :
    capture_main env co sf fg0 wasMin s1 tr1 = (none, s1, tr1) := by
  unfold capture_main
  unfold main_aborts at h
  split_ifs <;> simp_all

lemma capture_main_of_runs (env : Env) (co : Bool) (sf : Option String)
    (fg0 : Int) (wasMin : Bool) (s1 : Sys) (tr1 : List Act)
    (h : ¬ main_aborts env co) :
    capture_main env co sf fg0 wasMin s1 tr1 =
      release_and_restore env (render_and_extract env co sf tr1).1 fg0 wasMin s1
        (render_and_extract env co sf tr1).2 := by
  unfold capture_main
  unfold main_aborts at h
  push_neg at h
  split_ifs <;> simp_all

lemma release_and_restore_foreground (env : Env) (img : Option Image) (fg0 : Int)
    (wasMin : Bool) (s1 : Sys) (tr : List Act) :
    (release_and_restore env img fg0 wasMin s1 tr).2.1.foreground =
      if fg0 = 0 then s1.foreground else fg0 := by
  unfold release_and_restore restore_window_opacity restore_focus
  split_ifs <;> simp_all

lemma release_and_restore_minimized (env : Env) (img : Option Image) (fg0 : Int)
    (wasMin : Bool) (s1 : Sys) (tr : List Act) :
    (release_and_restore env img fg0 wasMin s1 tr).2.1.minimized =
      (if wasMin = true then true else s1.minimized) := by
  unfold release_and_restore restore_window_opacity restore_focus
  split_ifs <;> simp_all

lemma release_and_restore_trace (env : Env) (img : Option Image) (fg0 : Int)
    (wasMin : Bool) (s1 : Sys) (tr : List Act) :
    (release_and_restore env img fg0 wasMin s1 tr).2.2 =
      tr ++ (if wasMin = true then
              Act.showMinimized ::
                (if env.restoreOpacityOk = true then [Act.unsetLayered] else [])
             else [])
         ++ (if fg0 = 0 then [] else [Act.restoreFocus fg0]) := by
  unfold release_and_restore restore_window_opacity restore_focus
  split_ifs <;> simp_all

lemma render_and_extract_snd (env : Env) (co : Bool) (sf : Option String)
    (tr1 : List Act) :
    (render_and_extract env co sf tr1).2 =
      tr1 ++ (render_attempts env co).2.2.map Act.tryRender
          ++ (match extracted_image env co, sf with
              | some _, some p => [Act.save p]
              | _, _ => []) := by
  unfold render_and_extract
  rcases h : extracted_image env co with _ | img <;> rcases sf with _ | p <;> simp [h]


lemma filter_focus_map_tryRender (l : List String) :
    (l.map Act.tryRender).filter isFocusRestore = [] := by
  induction l with
  | nil => rfl
  | cons a t ih => simp [isFocusRestore, ih]

lemma filter_save_map_tryRender (l : List String) :
    (l.map Act.tryRender).filter isSaveAct = [] := by
  induction l with
  | nil => rfl
  | cons a t ih => simp [isSaveAct, ih]

lemma make_window_transparent_snd (env : Env) (s : Sys) :
    (make_window_transparent env s).2 =
      ({ s with layered := if env.transparentOk = true then true else s.layered },
        if env.transparentOk = true then [Act.setLayered] else []) := by
  unfold make_window_transparent
  split_ifs <;> simp_all

/-- Which focus-restoration attempts `capture_window` issues: none on any
early-abort path, and exactly one — aimed at the recorded original
foreground window — whenever the call runs to completion with a nonzero
recorded foreground, whether or not an image was produced. -/
lemma capture_window_focus_filter (env : Env) (hwnd : Int) (co : Bool)
    (sf : Option String) (s : Sys) :
    ((capture_window env hwnd co sf s).2.2).filter isFocusRestore =
      if s.minimized = true ∧ env.restoreNoFocusOk = false then []
      else if main_aborts env co then []
      else if s.foreground = 0 then [] else [Act.restoreFocus s.foreground] := by
  unfold capture_window
  rcases hm : s.minimized <;> rcases hr : env.restoreNoFocusOk <;>
    by_cases ha : main_aborts env co <;>
    simp [hm, hr, ha, capture_main_of_aborts, capture_main_of_runs,
      release_and_restore_trace, render_and_extract_snd, render_and_extract_fst,
      make_window_transparent_snd, List.filter_append,
      filter_focus_map_tryRender, isFocusRestore] <;>
    (rcases hx : extracted_image env co with _ | img <;> rcases sf with _ | p <;>
      simp [hx, isFocusRestore] <;> split_ifs <;> simp [isFocusRestore])



lemma capture_main_save_filter (env : Env) (co : Bool) (sf : Option String)
    (fg0 : Int) (wasMin : Bool) (s1 : Sys) (tr1 : List Act)
    (h1 : tr1.filter isSaveAct = []) :
    ((capture_main env co sf fg0 wasMin s1 tr1).2.2).filter isSaveAct =
      match (capture_main env co sf fg0 wasMin s1 tr1).1, sf with
      | some _, some p => [Act.save p]
      | _, _ => [] := by
  by_cases ha : main_aborts env co
  · rw [capture_main_of_aborts _ _ _ _ _ _ _ ha]
    rcases sf with _ | p <;> simp [h1]
  · rw [capture_main_of_runs _ _ _ _ _ _ _ ha]
    rw [release_and_restore_fst, release_and_restore_trace, render_and_extract_snd,
      render_and_extract_fst]
    rcases hx : extracted_image env co with _ | img <;> rcases sf with _ | p <;>
      simp [hx, List.filter_append, h1, filter_save_map_tryRender, isSaveAct] <;>
      (intro a _ h; rcases h with rfl | ⟨_, rfl⟩ <;> rfl)

/-- Which file saves `capture_window` performs: exactly one save to the
supplied path when an image is returned and a path was supplied, and none
otherwise. -/
lemma capture_window_save_filter (env : Env) (hwnd : Int) (co : Bool)
    (sf : Option String) (s : Sys) :
    ((capture_window env hwnd co sf s).2.2).filter isSaveAct =
      match (capture_window env hwnd co sf s).1, sf with
      | some _, some p => [Act.save p]
      | _, _ => [] := by
  unfold capture_window
  cases hm : s.minimized with
  | false =>
    simp only [hm, Bool.false_eq_true, if_false]
    rw [capture_main_save_filter]
    rfl
  | true =>
    cases hr : env.restoreNoFocusOk with
    | true =>
      simp only [hm, hr, if_true]
      rw [capture_main_save_filter]
      rw [make_window_transparent_snd]
      simp [List.filter_append]
      exact ⟨fun _ => rfl, rfl⟩
    | false =>
      simp only [hm, hr, if_true, Bool.false_eq_true, if_false]
      rw [make_window_transparent_snd]
      rcases sf with _ | p <;> split_ifs <;> rfl



/-- `capture_window` always leaves the foreground window as it found it:
the early paths never touch it and the completion path restores it. -/
lemma capture_window_foreground (env : Env) (hwnd : Int) (co : Bool)
    (sf : Option String) (s : Sys) :
    (capture_window env hwnd co sf s).2.1.foreground = s.foreground := by
  unfold capture_window
  cases hm : s.minimized with
  | false =>
    simp only [hm, Bool.false_eq_true, if_false]
    by_cases ha : main_aborts env co
    · rw [capture_main_of_aborts _ _ _ _ _ _ _ ha]
    · rw [capture_main_of_runs _ _ _ _ _ _ _ ha, release_and_restore_foreground]
      split_ifs with h <;> simp [h]
  | true =>
    cases hr : env.restoreNoFocusOk with
    | true =>
      simp only [hm, hr, if_true]
      by_cases ha : main_aborts env co
      · rw [capture_main_of_aborts _ _ _ _ _ _ _ ha]
        rw [make_window_transparent_snd]
      · rw [capture_main_of_runs _ _ _ _ _ _ _ ha, release_and_restore_foreground]
        rw [make_window_transparent_snd]
        split_ifs with h <;> simp [h]
    | false =>
      simp only [hm, hr, if_true, Bool.false_eq_true, if_false]
      rw [make_window_transparent_snd]

/-- On any call that passes the dimension/DC/bitmap guards, the target's
minimized state is restored (or was never changed). -/
lemma capture_window_minimized (env : Env) (hwnd : Int) (co : Bool)
    (sf : Option String) (s : Sys) (h : ¬ main_aborts env co) :
    (capture_window env hwnd co sf s).2.1.minimized = s.minimized := by
  unfold capture_window
  cases hm : s.minimized with
  | false =>
    simp only [hm, Bool.false_eq_true, if_false]
    rw [capture_main_of_runs _ _ _ _ _ _ _ h, release_and_restore_minimized]
    simp [hm]
  | true =>
    cases hr : env.restoreNoFocusOk with
    | true =>
      simp only [hm, hr, if_true]
      rw [capture_main_of_runs _ _ _ _ _ _ _ h, release_and_restore_minimized]
      simp
    | false =>
      simp only [hm, hr, if_true, Bool.false_eq_true, if_false]
      rw [make_window_transparent_snd]
      exact hm



/-- On a completion path with a nonzero recorded foreground, the very last
action of the trace is the focus-restoration attempt. -/
lemma capture_window_last (env : Env) (hwnd : Int) (co : Bool)
    (sf : Option String) (s : Sys)
    (h1 : ¬ (s.minimized = true ∧ env.restoreNoFocusOk = false))
    (h2 : ¬ main_aborts env co) (h3 : s.foreground ≠ 0) :
    ((capture_window env hwnd co sf s).2.2).getLast? =
      some (Act.restoreFocus s.foreground) := by
  unfold capture_window
  cases hm : s.minimized with
  | false =>
    simp only [hm, Bool.false_eq_true, if_false]
    rw [capture_main_of_runs _ _ _ _ _ _ _ h2, release_and_restore_trace]
    rw [if_neg h3, List.getLast?_concat]
  | true =>
    cases hr : env.restoreNoFocusOk with
    | true =>
      simp only [hm, hr, if_true]
      rw [capture_main_of_runs _ _ _ _ _ _ _ h2, release_and_restore_trace]
      rw [if_neg h3, List.getLast?_concat]
    | false =>
      exact absurd ⟨hm, hr⟩ h1

/-- Any image returned by `capture_window` has exactly the computed target
dimensions, and those dimensions were strictly positive. -/
lemma capture_window_some_dims (env : Env) (hwnd : Int) (co : Bool)
    (sf : Option String) (s : Sys) (img : Image)
    (h : (capture_window env hwnd co sf s).1 = some img) :
    img.width = (get_window_dimensions env co).width.toNat ∧
    img.height = (get_window_dimensions env co).height.toNat ∧
    0 < (get_window_dimensions env co).width ∧
    0 < (get_window_dimensions env co).height := by
  rw [capture_window_fst] at h
  unfold capture_result extracted_image at h
  split_ifs at h <;> (try simp only [ite_self] at h) <;>
    (try split_ifs at h) <;> (try exact Option.noConfusion h) <;>
    (injection h with h2; subst h2; refine ⟨rfl, rfl, ?_, ?_⟩ <;> omega)

lemma capture_result_none_early (env : Env) (co m : Bool)
    (hc : m = true ∧ env.restoreNoFocusOk = false) :
    capture_result env co m = none := by
  unfold capture_result
  rw [if_pos hc]

lemma capture_result_none_aborts (env : Env) (co m : Bool)
    (ha : main_aborts env co) :
    capture_result env co m = none := by
  unfold capture_result
  unfold main_aborts at ha
  by_cases hc : m = true ∧ env.restoreNoFocusOk = false
  · rw [if_pos hc]
  · rw [if_neg hc]
    rcases ha with ha | ha | ha | ha | ha <;> split_ifs <;> simp_all

/-- An image is only returned when neither the transient-restore abort nor
any of the dimension/DC/bitmap guards fired. -/
lemma capture_window_isSome (env : Env) (hwnd : Int) (co : Bool)
    (sf : Option String) (s : Sys)
    (h : (capture_window env hwnd co sf s).1.isSome = true) :
    ¬ (s.minimized = true ∧ env.restoreNoFocusOk = false) ∧ ¬ main_aborts env co := by
  rw [capture_window_fst] at h
  constructor
  · intro hc
    rw [capture_result_none_early env co s.minimized hc] at h
    simp at h
  · intro ha
    rw [capture_result_none_aborts env co s.minimized ha] at h
    simp at h



/-! ### Geometry abbreviations (§3 of the code's geometry: lines 338-349) -/

/-- `left_border` of line 345: client origin x minus window left. -/
def border_left (env : Env) : Int := env.clientOrigin.1 - env.windowRect.left

/-- `top_border` of line 346: client origin y minus window top. -/
def border_top (env : Env) : Int := env.clientOrigin.2 - env.windowRect.top

/-- `client_width` of line 348. -/
def client_w (env : Env) : Int := env.clientRect.right - env.clientRect.left

/-- `client_height` of line 349. -/
def client_h (env : Env) : Int := env.clientRect.bottom - env.clientRect.top

/-- full-window width, `right - left`. -/
def window_w (env : Env) : Int := env.windowRect.right - env.windowRect.left

/-- full-window height, `bottom - top`. -/
def window_h (env : Env) : Int := env.windowRect.bottom - env.windowRect.top

lemma gwd_true_width (env : Env) :
    (get_window_dimensions env true).width = client_w env := rfl

lemma gwd_true_height (env : Env) :
    (get_window_dimensions env true).height = client_h env := rfl

lemma gwd_false_width (env : Env) :
    (get_window_dimensions env false).width = window_w env := rfl

lemma gwd_false_height (env : Env) :
    (get_window_dimensions env false).height = window_h env := rfl

/-- The crop rectangle of `capture_window_client_crop` would read a pixel
outside the full-window image bounds (this includes any negative border
offset, which the code rejects outright). -/
def crop_reads_outside (env : Env) : Prop :=
  border_left env < 0 ∨ border_top env < 0 ∨
  ∃ x y : Int,
    (border_left env ≤ x ∧ x < border_left env + client_w env ∧
     border_top env ≤ y ∧ y < border_top env + client_h env) ∧
    (x < 0 ∨ window_w env ≤ x ∨ y < 0 ∨ window_h env ≤ y)

/-! ### Spec-side description of the render chain (§4.3 of the spec) -/

/-- Modelled from the spec: the ordered strategy chain in client-only
mode, each entry a name and its success flag. -/
def clientChain (env : Env) : List (String × Bool) :=
  [("PrintWindow PW_CLIENTONLY", env.pwClientOnly),
   ("Standard PrintWindow", env.pwPlain),
   ("BitBlt", env.bitblt)]

/-- Modelled from the spec: the ordered strategy chain in full-window mode. -/
def fullChain (env : Env) : List (String × Bool) :=
  [("PrintWindow PW_RENDERFULLCONTENT", env.pwFull),
   ("BitBlt", env.bitblt)]

/-- Modelled from the spec: "the first `true` wins and its identity is
recorded". -/
def firstSuccess : List (String × Bool) → Option String
  | [] => none
  | (m, b) :: rest => if b then some m else firstSuccess rest

/-- Modelled from the spec: the attempts actually tried, in strict order,
stopping at the first success. -/
def triedUpToFirst : List (String × Bool) → List String
  | [] => []
  | (m, b) :: rest => if b then [m] else m :: triedUpToFirst rest



/-! ### Substring matching lemmas for the title search -/

lemma sub_in_nil (l : List Char) : sub_in [] l = true := by
  induction l with
  | nil => rfl
  | cons c t ih => simp [sub_in, List.isPrefixOf, ih]

lemma title_matches_empty (t : String) : title_matches "" t = true := by
  unfold title_matches lowerChars
  exact sub_in_nil _

lemma foldl_append_filter (c : Int × String → Bool) (l acc : List (Int × String)) :
    l.foldl (fun ws p => if c p then ws ++ [p] else ws) acc = acc ++ l.filter c := by
  induction l generalizing acc with
  | nil => simp
  | cons a t ih =>
    cases h : c a <;> simp [List.foldl_cons, h, ih, List.filter_cons]



/-! ### Concrete environments used by witnesses and counterexamples -/

/-- A fully healthy oracle: valid geometry, every API call succeeds. -/
def envBase : Env :=
  { windowRect := ⟨0, 0, 100, 80⟩
    clientRect := ⟨0, 0, 90, 70⟩
    clientOrigin := (5, 5)
    visible := true
    transparentOk := true
    restoreNoFocusOk := true
    getDcOk := true
    createDcOk := true
    bitmapOk := true
    pwClientOnly := true
    pwPlain := true
    bitblt := true
    pwFull := true
    bitsEmpty := false
    frombufferOk := true
    restoreOpacityOk := true
    clientPix := fun x y => 1000 + x + 100 * y
    fullPix := fun x y => x + 100 * y }

/-- Healthy oracle except the client rectangle is zero-sized. -/
def envZeroClient : Env := { envBase with clientRect := ⟨0, 0, 0, 0⟩ }

/-- Healthy oracle except the window rectangle is zero-sized. -/
def envZeroWindow : Env := { envBase with windowRect := ⟨0, 0, 0, 0⟩ }

/-- Healthy oracle except `restore_window_no_focus` fails. -/
def envNoRestore : Env := { envBase with restoreNoFocusOk := false }

/-- Healthy oracle except every render strategy fails. -/
def envAllFail : Env :=
  { envBase with pwClientOnly := false, pwPlain := false, bitblt := false, pwFull := false }

/-- Healthy oracle except the bitmap bits read back empty. -/
def envEmptyBits : Env := { envBase with bitsEmpty := true }

/-- Healthy oracle except the client origin lies left of the window
(negative border offset, malformed geometry). -/
def envNegBorder : Env := { envBase with clientOrigin := (-3, 5) }

/-- Initial desktop state: another window (7) has focus, target not
minimized. -/
def sysPlain : Sys := ⟨7, false, false⟩

/-- Initial desktop state: another window (7) has focus, target minimized. -/
def sysMin : Sys := ⟨7, true, false⟩

/-- Initial desktop state: the target window (5) itself has focus. -/
def sysSelf : Sys := ⟨5, false, false⟩



/-! ### Claim theorems -/

/-- C5: the render step tries its strategies in strict order, stopping at
the first that reports success — client mode: PrintWindow PW_CLIENTONLY,
then plain PrintWindow, then BitBlt; full mode: PrintWindow
PW_RENDERFULLCONTENT, then BitBlt.  The winning strategy's identity is
recorded (`method_used`), and if every attempt fails the capture returns
no image. -/
theorem c5_render_chain_order :
    (∀ env : Env,
      (render_attempts env true).2.1 = firstSuccess (clientChain env) ∧
      (render_attempts env true).2.2 = triedUpToFirst (clientChain env) ∧
      (render_attempts env false).2.1 = firstSuccess (fullChain env) ∧
      (render_attempts env false).2.2 = triedUpToFirst (fullChain env) ∧
      (∀ co : Bool, (render_attempts env co).1 = ((render_attempts env co).2.1).isSome))
    ∧ (∀ (env : Env) (hwnd : Int) (co : Bool) (sf : Option String) (s : Sys),
        (render_attempts env co).1 = false →
        (capture_window env hwnd co sf s).1 = none) := by
  constructor
  · intro env
    have hco : ∀ co : Bool,
        (render_attempts env co).1 = ((render_attempts env co).2.1).isSome := by
      intro co
      cases co <;> cases h1 : env.pwClientOnly <;> cases h2 : env.pwPlain <;>
        cases h3 : env.bitblt <;> cases h4 : env.pwFull <;>
        simp [render_attempts, h1, h2, h3, h4]
    refine ⟨?_, ?_, ?_, ?_, hco⟩ <;>
      cases h1 : env.pwClientOnly <;> cases h2 : env.pwPlain <;>
      cases h3 : env.bitblt <;> cases h4 : env.pwFull <;>
      simp [render_attempts, clientChain, fullChain, firstSuccess, triedUpToFirst,
        h1, h2, h3, h4]
  · intro env hwnd co sf s hfail
    rw [capture_window_fst]
    unfold capture_result extracted_image
    rw [hfail]
    split_ifs <;> simp_all [ite_self]

/-- C5 witness: the chain facts evaluated on a healthy oracle, and the
no-image outcome on an oracle whose every strategy fails. -/
theorem c5_render_chain_order_witness :
    ((render_attempts envBase true).2.1 = firstSuccess (clientChain envBase)) ∧
    ((render_attempts envAllFail true).1 = false) ∧
    (capture_window envAllFail 5 true none sysPlain).1 = none :=
  ⟨(c5_render_chain_order.1 envBase).1, rfl,
    c5_render_chain_order.2 envAllFail 5 true none sysPlain rfl⟩

/-- C7: if a rendering strategy reports success but the extracted pixel
buffer has zero length, `capture_window` treats the capture as failed and
returns no image. -/
theorem c7_empty_bitmap_guard (env : Env) (hwnd : Int) (co : Bool)
    (sf : Option String) (s : Sys)
    (hs : (render_attempts env co).1 = true) (he : env.bitsEmpty = true) :
    (capture_window env hwnd co sf s).1 = none := by
  rw [capture_window_fst]
  unfold capture_result extracted_image
  rw [hs, he]
  split_ifs <;> simp_all [ite_self]

/-- C7 witness: concrete call with successful render and empty bits. -/
theorem c7_empty_bitmap_guard_witness :
    ((render_attempts envEmptyBits true).1 = true) ∧
    (envEmptyBits.bitsEmpty = true) ∧
    (capture_window envEmptyBits 5 true none sysPlain).1 = none :=
  ⟨rfl, rfl, c7_empty_bitmap_guard envEmptyBits 5 true none sysPlain rfl rfl⟩



/-- C6: the claim "captureClient returns no image whenever the computed
capture dimensions are ≤ 0" fails: on a handle whose client rectangle is
zero-sized but whose window rectangle is capturable, the direct client
capture is rejected by the dimension guard, but the crop fallback then
returns a 0×0 image (the empty crop box lies within the full-window
image, so the bounds check passes). -/
theorem c6_dimension_guard_counterexample :
    (get_window_dimensions envZeroClient true).width = 0 ∧
    ((capture_window_client envZeroClient envZeroClient 5 none sysPlain).1).isSome = true ∧
    ((capture_window_client envZeroClient envZeroClient 5 none sysPlain).1).map
      Image.width = some 0 ∧
    ((capture_window_client envZeroClient envZeroClient 5 none sysPlain).1).map
      Image.height = some 0 :=
  ⟨rfl, rfl, rfl, rfl⟩

/-- C6 (amended): `captureFull` returns no image whenever the computed
full-window width or height is ≤ 0, and the direct client-only capture
(the capture `captureClient` attempts first) likewise returns no image
whenever the computed client width or height is ≤ 0; however
`captureClient` as a whole may still return a zero-sized image through the
crop fallback. -/
theorem c6_dimension_guard_amended (envD envF : Env) (hwnd : Int)
    (sfD sfF : Option String) (s : Sys)
    (hc : client_w envD ≤ 0 ∨ client_h envD ≤ 0)
    (hw : window_w envF ≤ 0 ∨ window_h envF ≤ 0) :
    (capture_window envD hwnd true sfD s).1 = none ∧
    (capture_window_full envF hwnd sfF s).1 = none := by
  constructor
  · rw [capture_window_fst]
    apply capture_result_none_aborts
    unfold main_aborts
    rw [gwd_true_width, gwd_true_height]
    tauto
  · unfold capture_window_full
    rw [capture_window_fst]
    apply capture_result_none_aborts
    unfold main_aborts
    rw [gwd_false_width, gwd_false_height]
    tauto

/-- C6 amended witness: zero client rectangle and zero window rectangle. -/
theorem c6_dimension_guard_amended_witness :
    (client_w envZeroClient ≤ 0 ∨ client_h envZeroClient ≤ 0) ∧
    (window_w envZeroWindow ≤ 0 ∨ window_h envZeroWindow ≤ 0) ∧
    (capture_window envZeroClient 5 true none sysPlain).1 = none ∧
    (capture_window_full envZeroWindow 5 none sysPlain).1 = none :=
  ⟨Or.inl (by decide), Or.inl (by decide),
    (c6_dimension_guard_amended envZeroClient envZeroWindow 5 none none sysPlain
      (Or.inl (by decide)) (Or.inl (by decide))).1,
    (c6_dimension_guard_amended envZeroClient envZeroWindow 5 none none sysPlain
      (Or.inl (by decide)) (Or.inl (by decide))).2⟩

/-- C1: the claim "the target's minimized state is always preserved"
fails: a minimized window that is successfully force-restored and then
hits the invalid-dimension early return (line 169) is left un-minimized —
the early `return None` skips the re-minimize step (and the focus/opacity
restoration). -/
theorem c1_restoration_counterexample :
    sysMin.minimized = true ∧
    (capture_window envZeroClient 5 true none sysMin).2.1.minimized = false :=
  ⟨rfl, rfl⟩

/-- C1 (amended): the foreground window is preserved by every capture
call; the minimized state is preserved by every call that does not return
early between the forced restore and the restoration step — that is,
whenever the dimension, device-context and bitmap guards all pass (the
render chain and extraction may still fail). -/
theorem c1_restoration_amended :
    (∀ (env : Env) (hwnd : Int) (co : Bool) (sf : Option String) (s : Sys),
      (capture_window env hwnd co sf s).2.1.foreground = s.foreground)
    ∧ (∀ (env : Env) (hwnd : Int) (co : Bool) (sf : Option String) (s : Sys),
        ¬ main_aborts env co →
        (capture_window env hwnd co sf s).2.1.minimized = s.minimized) :=
  ⟨fun env hwnd co sf s => capture_window_foreground env hwnd co sf s,
   fun env hwnd co sf s h => capture_window_minimized env hwnd co sf s h⟩

/-- C1 amended witness: a minimized window on a healthy oracle comes back
minimized with the original focus owner restored. -/
theorem c1_restoration_amended_witness :
    (¬ main_aborts envBase true) ∧
    (capture_window envBase 5 true none sysMin).2.1.foreground = sysMin.foreground ∧
    (capture_window envBase 5 true none sysMin).2.1.minimized = sysMin.minimized :=
  ⟨by decide, c1_restoration_amended.1 envBase 5 true none sysMin,
    c1_restoration_amended.2 envBase 5 true none sysMin (by decide)⟩



/-- C2: the claim "focus restoration is attempted exactly once on every
exit path, including the path where forcing a minimized window visible
fails" is false: on that path (line 159's `return None`) the code returns
without any focus-restoration attempt, although a nonzero foreground
window (7) was recorded at the start. -/
theorem c2_focus_exactly_once_counterexample :
    sysMin.foreground ≠ 0 ∧
    ((capture_window envNoRestore 5 true none sysMin).2.2).filter isFocusRestore = [] :=
  ⟨by decide, by decide⟩

/-- C2 (amended): when a nonzero foreground window was recorded at the
start, focus restoration to it is attempted exactly once, as the very
last action, on every path that survives the early returns — i.e. when
the transient restore did not fail and the dimension/DC/bitmap guards
passed (render or extraction failure still restores focus).  The early
return paths attempt no focus restoration. -/
theorem c2_focus_exactly_once_amended (env : Env) (hwnd : Int) (co : Bool)
    (sf : Option String) (s : Sys)
    (h1 : ¬ (s.minimized = true ∧ env.restoreNoFocusOk = false))
    (h2 : ¬ main_aborts env co) (h3 : s.foreground ≠ 0) :
    ((capture_window env hwnd co sf s).2.2).filter isFocusRestore =
      [Act.restoreFocus s.foreground] ∧
    ((capture_window env hwnd co sf s).2.2).getLast? =
      some (Act.restoreFocus s.foreground) := by
  constructor
  · rw [capture_window_focus_filter]
    rw [if_neg h1, if_neg h2, if_neg h3]
  · exact capture_window_last env hwnd co sf s h1 h2 h3

/-- C2 amended witness: healthy capture of a minimized window restores
focus once, as the last action. -/
theorem c2_focus_exactly_once_amended_witness :
    (¬ (sysMin.minimized = true ∧ envBase.restoreNoFocusOk = false)) ∧
    (¬ main_aborts envBase true) ∧ sysMin.foreground ≠ 0 ∧
    ((capture_window envBase 5 true none sysMin).2.2).filter isFocusRestore =
      [Act.restoreFocus sysMin.foreground] ∧
    ((capture_window envBase 5 true none sysMin).2.2).getLast? =
      some (Act.restoreFocus sysMin.foreground) :=
  ⟨by decide, by decide, by decide,
    (c2_focus_exactly_once_amended envBase 5 true none sysMin
      (by decide) (by decide) (by decide)).1,
    (c2_focus_exactly_once_amended envBase 5 true none sysMin
      (by decide) (by decide) (by decide)).2⟩

/-- C9: the claim "no focus-restoring action is issued when the target
itself held focus" is false: on a fully successful capture of window 5
while window 5 itself was the foreground window, the code still issues a
focus-restoration attempt (line 286 checks only that the recorded
foreground is nonzero, not that it differs from the target). -/
theorem c9_focus_only_if_different_counterexample :
    sysSelf.foreground = 5 ∧
    (capture_window envBase 5 true none sysSelf).1.isSome = true ∧
    ((capture_window envBase 5 true none sysSelf).2.2).filter isFocusRestore =
      [Act.restoreFocus 5] :=
  ⟨rfl, rfl, by decide⟩

/-- C9 (amended): on the success path, focus restoration is performed
precisely when the recorded original foreground window is nonzero —
regardless of whether it is the target window itself. -/
theorem c9_focus_only_if_different_amended (env : Env) (hwnd : Int) (co : Bool)
    (sf : Option String) (s : Sys)
    (h : (capture_window env hwnd co sf s).1.isSome = true) :
    ((capture_window env hwnd co sf s).2.2).filter isFocusRestore =
      (if s.foreground = 0 then [] else [Act.restoreFocus s.foreground]) := by
  obtain ⟨h1, h2⟩ := capture_window_isSome env hwnd co sf s h
  rw [capture_window_focus_filter, if_neg h1, if_neg h2]

/-- C9 amended witness: successful capture with the target holding focus
still yields one restoration attempt aimed at the target. -/
theorem c9_focus_only_if_different_amended_witness :
    ((capture_window envBase 5 true none sysSelf).1.isSome = true) ∧
    ((capture_window envBase 5 true none sysSelf).2.2).filter isFocusRestore =
      (if sysSelf.foreground = 0 then [] else [Act.restoreFocus sysSelf.foreground]) :=
  ⟨rfl, c9_focus_only_if_different_amended envBase 5 true none sysSelf rfl⟩



/-- C4: if the crop rectangle computed by `capture_window_client_crop`
(border offsets plus client width/height) would read any pixel outside
the full-window image — and in particular whenever a border offset is
negative — the call returns no image. -/
theorem c4_crop_bounds_rejection (env : Env) (hwnd : Int) (sf : Option String)
    (s : Sys) (hout : crop_reads_outside env) :
    (capture_window_client_crop env hwnd sf s).1 = none := by
  unfold capture_window_client_crop
  rcases hfull : (capture_window_full env hwnd none s).1 with _ | full
  · simp [hfull]
  · obtain ⟨hfw, hfh, hwpos, hhpos⟩ :=
      capture_window_some_dims env hwnd false none s full hfull
    rw [gwd_false_width] at hfw hwpos
    rw [gwd_false_height] at hfh hhpos
    simp only [hfull]
    have hcond : env.clientOrigin.1 - env.windowRect.left < 0
        ∨ env.clientOrigin.2 - env.windowRect.top < 0
        ∨ env.clientOrigin.1 - env.windowRect.left
            + (env.clientRect.right - env.clientRect.left) > (full.width : Int)
        ∨ env.clientOrigin.2 - env.windowRect.top
            + (env.clientRect.bottom - env.clientRect.top) > (full.height : Int) := by
      rw [hfw, hfh]
      unfold crop_reads_outside border_left border_top client_w client_h at hout
      unfold window_w at hout hwpos ⊢
      unfold window_h at hout hhpos ⊢
      rcases hout with h | h | ⟨x, y, ⟨hx1, hx2, hy1, hy2⟩, hb⟩
      · exact Or.inl h
      · exact Or.inr (Or.inl h)
      · rcases hb with hb | hb | hb | hb <;> omega
    rw [if_pos hcond]
  


/-- C4 witness: malformed geometry with a negative left border offset is
rejected by the crop fallback. -/
theorem c4_crop_bounds_rejection_witness :
    crop_reads_outside envNegBorder ∧
    (capture_window_client_crop envNegBorder 5 none sysPlain).1 = none :=
  ⟨Or.inl (by decide),
    c4_crop_bounds_rejection envNegBorder 5 none sysPlain (Or.inl (by decide))⟩

/-- C3: when the direct client-only capture returns no image,
`capture_window_client` returns exactly what the crop fallback
`capture_window_client_crop` produces; and whenever that crop path
succeeds, the image has the client rectangle's dimensions and its pixels
are the sub-region of the full-window capture starting at the border
offsets. -/
theorem c3_crop_fallback (envDirect envCrop : Env) (hwnd : Int)
    (sf : Option String) (s : Sys)
    (hdirect : (capture_window envDirect hwnd true none s).1 = none) :
    ((capture_window_client envDirect envCrop hwnd sf s).1 =
      (capture_window_client_crop envCrop hwnd sf
        (capture_window envDirect hwnd true none s).2.1).1)
    ∧ (∀ img,
        (capture_window_client_crop envCrop hwnd sf
          (capture_window envDirect hwnd true none s).2.1).1 = some img →
        img.width = (client_w envCrop).toNat ∧
        img.height = (client_h envCrop).toNat ∧
        ∃ full,
          (capture_window envCrop hwnd false none
            (capture_window envDirect hwnd true none s).2.1).1 = some full ∧
          ∀ x y : Nat, img.pix x y =
            full.pix ((border_left envCrop).toNat + x)
              ((border_top envCrop).toNat + y)) := by
  constructor
  · unfold capture_window_client
    simp [hdirect]
  · intro img h
    unfold capture_window_client_crop capture_window_full at h
    rcases hfull : (capture_window envCrop hwnd false none
        (capture_window envDirect hwnd true none s).2.1).1 with _ | full
    · simp only [hfull] at h
      simp at h
    · simp only [hfull] at h
      split_ifs at h with hb1 hb2 <;> try exact Option.noConfusion h
      have himg : img = full.crop
          (envCrop.clientOrigin.1 - envCrop.windowRect.left)
          (envCrop.clientOrigin.2 - envCrop.windowRect.top)
          (envCrop.clientOrigin.1 - envCrop.windowRect.left
            + (envCrop.clientRect.right - envCrop.clientRect.left))
          (envCrop.clientOrigin.2 - envCrop.windowRect.top
            + (envCrop.clientRect.bottom - envCrop.clientRect.top)) := by
        rcases sf with _ | p <;> (simp at h; exact h.symm)
      push_neg at hb1 hb2
      refine ⟨?_, ?_, full, rfl, ?_⟩
      · rw [himg]
        unfold Image.crop client_w
        simp
      · rw [himg]
        unfold Image.crop client_h
        simp
      · intro x y
        rw [himg]
        unfold Image.crop border_left border_top
        simp only
        congr 1 <;> omega



/-- C3 witness: with every direct client render strategy failing, the
fallback produces the crop result; on the healthy crop oracle the crop
succeeds with the client dimensions. -/
theorem c3_crop_fallback_witness :
    ((capture_window envAllFail 5 true none sysPlain).1 = none) ∧
    ((capture_window_client envAllFail envBase 5 none sysPlain).1 =
      (capture_window_client_crop envBase 5 none
        (capture_window envAllFail 5 true none sysPlain).2.1).1) ∧
    ((capture_window_client envAllFail envBase 5 none sysPlain).1).map
      Image.width = some 90 :=
  ⟨rfl, (c3_crop_fallback envAllFail envBase 5 none sysPlain rfl).1, rfl⟩



/-- Saves performed by `capture_window_client_crop`: exactly one save to
the supplied path when it returns an image, none otherwise (its inner
full-window capture is always invoked without a save path). -/
lemma capture_crop_save_filter (env : Env) (hwnd : Int) (sf : Option String)
    (s : Sys) :
    ((capture_window_client_crop env hwnd sf s).2.2).filter isSaveAct =
      match (capture_window_client_crop env hwnd sf s).1, sf with
      | some _, some p => [Act.save p]
      | _, _ => [] := by
  unfold capture_window_client_crop capture_window_full
  have hinner := capture_window_save_filter env hwnd false none s
  rcases hfull : (capture_window env hwnd false none s).1 with _ | full <;>
    rw [hfull] at hinner <;> simp only [hfull]
  · rcases sf with _ | p <;> simpa using hinner
  · split_ifs with hb1 hb2
    · rcases sf with _ | p <;> simpa using hinner
    · rcases sf with _ | p <;> simpa using hinner
    · rcases sf with _ | p
      · simpa using hinner
      · simp only [List.filter_append]
        simp at hinner
        simp [hinner, isSaveAct]
        exact fun a ha => hinner a ha

/-- Saves performed by `capture_window_client`: exactly one save to the
supplied path when it returns an image, none otherwise (the direct
attempt runs with no save path; the save happens at this level or inside
the crop fallback). -/
lemma capture_client_save_filter (envDirect envCrop : Env) (hwnd : Int)
    (sf : Option String) (s : Sys) :
    ((capture_window_client envDirect envCrop hwnd sf s).2.2).filter isSaveAct =
      match (capture_window_client envDirect envCrop hwnd sf s).1, sf with
      | some _, some p => [Act.save p]
      | _, _ => [] := by
  unfold capture_window_client
  have hdir := capture_window_save_filter envDirect hwnd true none s
  have hcrop := capture_crop_save_filter envCrop hwnd sf
    (capture_window envDirect hwnd true none s).2.1
  rcases hd : (capture_window envDirect hwnd true none s).1 with _ | img <;>
    rw [hd] at hdir <;> simp only [hd]
  · simp at hdir
    simp [List.filter_append, hdir, hcrop]
    exact fun a ha => hdir a ha
  · simp at hdir
    rcases sf with _ | p <;> simp [List.filter_append, hdir, isSaveAct] <;>
      exact fun a ha => hdir a ha



/-- C10: for every capture call with a save path supplied, a file save is
performed if and only if the call returns an image, and then exactly one
save, to the supplied path.  Holds for `capture_window` (both modes),
`capture_window_client`, and `capture_window_client_crop`. -/
theorem c10_save_iff_image (env envDirect envCrop : Env) (hwnd : Int)
    (co : Bool) (p : String) (s : Sys) :
    (((capture_window env hwnd co (some p) s).2.2).filter isSaveAct =
      (if (capture_window env hwnd co (some p) s).1.isSome
       then [Act.save p] else []))
    ∧ (((capture_window_client envDirect envCrop hwnd (some p) s).2.2).filter isSaveAct =
        (if (capture_window_client envDirect envCrop hwnd (some p) s).1.isSome
         then [Act.save p] else []))
    ∧ (((capture_window_client_crop envCrop hwnd (some p) s).2.2).filter isSaveAct =
        (if (capture_window_client_crop envCrop hwnd (some p) s).1.isSome
         then [Act.save p] else [])) := by
  refine ⟨?_, ?_, ?_⟩
  · rw [capture_window_save_filter]
    rcases (capture_window env hwnd co (some p) s).1 with _ | img <;> simp
  · rw [capture_client_save_filter]
    rcases (capture_window_client envDirect envCrop hwnd (some p) s).1 with _ | img <;>
      simp
  · rw [capture_crop_save_filter]
    rcases (capture_window_client_crop envCrop hwnd (some p) s).1 with _ | img <;> simp



/-- C8: over an enumeration whose handles are all live windows, the title
search returns exactly the pairs whose title contains the query
case-insensitively, in enumeration order; the empty query returns every
window. -/
theorem c8_title_search (isWindow : Int → Bool) (enum : List (Int × String))
    (query : String) (h : ∀ pr ∈ enum, isWindow pr.1 = true) :
    find_windows_by_title_sub isWindow enum query =
      enum.filter (fun pr => title_matches query pr.2)
    ∧ find_windows_by_title_sub isWindow enum "" = enum := by
  have key : ∀ q : String,
      find_windows_by_title_sub isWindow enum q =
        enum.filter (fun pr => title_matches q pr.2) := by
    intro q
    unfold find_windows_by_title_sub
    rw [foldl_append_filter]
    simp only [List.nil_append]
    apply List.filter_congr
    intro pr hpr
    simp [h pr hpr]
  refine ⟨key query, ?_⟩
  rw [key ""]
  apply List.filter_eq_self.2
  intro pr hpr
  simp [title_matches_empty]

/-- The three windows of the spec's title-search scenario. -/
def demoWindows : List (Int × String) :=
  [(1, "Notepad"), (2, "note.txt - Notepad"), (3, "Calculator")]

/-- C8 witness: searching "nOtepad" over the scenario windows returns
exactly the two Notepad windows, in enumeration order; the filter form
agrees. -/
theorem c8_title_search_witness :
    (∀ pr ∈ demoWindows, (fun _ : Int => true) pr.1 = true) ∧
    find_windows_by_title_sub (fun _ => true) demoWindows "nOtepad" =
      demoWindows.filter (fun pr => title_matches "nOtepad" pr.2) ∧
    find_windows_by_title_sub (fun _ => true) demoWindows "nOtepad" =
      [(1, "Notepad"), (2, "note.txt - Notepad")] ∧
    find_windows_by_title_sub (fun _ => true) demoWindows "" = demoWindows :=
  ⟨fun pr _ => rfl,
    (c8_title_search (fun _ => true) demoWindows "nOtepad" (fun pr _ => rfl)).1,
    by decide,
    (c8_title_search (fun _ => true) demoWindows "nOtepad" (fun pr _ => rfl)).2⟩


end PyWin32Cap
